import Mathlib

/-!
Verification of `src/tools/hermit_proxy/src/uhyve/uhyve.rs` (libhermit).

The file under verification is a thin wrapper around the KVM virtualization
device: it declares the fixed catalog of KVM ioctl operation codes, opens
`/dev/kvm` at construction, probes the KVM API version, and bootstraps VM
creation by delegating to the external `VirtualMachine` collaborator.

Shallow embedding conventions:
- Kernel boundary calls (ioctl results, the outcome of opening the device
  node) are passed in as explicit oracle arguments of type `Except OsErr _`.
- Methods taking `&self` are embedded in state-passing form: they return the
  `Uhyve` state after the call alongside their result, so frame properties
  about the owned device handle can be stated.
- Observable effects (log records emitted, calls made to the external
  `VirtualMachine` constructor) are returned as explicit traces.
- A function whose Rust counterpart can panic (`unwrap`) returns `PanicOr`.
-/

namespace Hermit

/-- OS error code (`errno`) reported by a failing kernel call. -/
abbrev OsErr := Int

/-- An open file, identified by its raw OS file descriptor
(`std::fs::File`; only `as_raw_fd` is used by the code under verification). -/
structure File where
  fd : Int
deriving DecidableEq, Repr

/-- `std::os::unix::io::AsRawFd::as_raw_fd`: the raw descriptor of the file. -/
def File.as_raw_fd (f : File) : Int := f.fd

/-! ## Control-request catalog (the `ioctl` module, uhyve.rs lines 16-47) -/

/-- Direction tag of an ioctl request, mirroring which form of the `ioctl!`
macro declares it: `io` (no payload), `read` (kernel fills a caller buffer),
`write` (kernel consumes a caller buffer), or `readwrite` (both). -/
inductive Direction where
  | none
  | read
  | write
  | readwrite
deriving DecidableEq, Repr

/-- Payload structure types named by the catalog, from
`uhyve::kvm_header`.  Only their identity matters to the catalog, so they
are modelled as an enumeration of type names. -/
inductive PayloadType where
  | kvm_msr_list
  | kvm_cpuid2_header
  | kvm_memory_region
  | kvm_dirty_log
  | kvm_memory_alias
  | kvm_userspace_memory_region
  | kvm_regs
  | kvm_sregs
deriving DecidableEq, Repr

/-- Modelled from the spec: the subsystem class id constant `KVMIO`, declared
in `uhyve::kvm_header`, which is outside the available sources.  Every catalog
entry uses this single constant; no claim depends on its numeric value, only
on its identity, so it is fixed here at the conventional Linux value 0xAE. -/
def KVMIO : Nat := 0xAE

/-- One entry of the control-request catalog: a fixed compile-time tuple of
(subsystem class id, operation number, direction, optional payload type). -/
structure ControlRequestCode where
  classId : Nat
  number : Nat
  dir : Direction
  payload : Option PayloadType
deriving DecidableEq, Repr

namespace ioctl

/-- `ioctl!(get_version with io!(KVMIO, 0x00));` -/
def get_version : ControlRequestCode :=
  { classId := KVMIO, number := 0x00, dir := Direction.none, payload := none }

/-- `ioctl!(create_vm with io!(KVMIO, 0x01));` -/
def create_vm : ControlRequestCode :=
  { classId := KVMIO, number := 0x01, dir := Direction.none, payload := none }

/-- `ioctl!(read get_msr_index_list with KVMIO, 0x02; kvm_msr_list);` -/
def get_msr_index_list : ControlRequestCode :=
  { classId := KVMIO, number := 0x02, dir := Direction.read,
    payload := some PayloadType.kvm_msr_list }

/-- `ioctl!(check_extension with io!(KVMIO, 0x03));` -/
def check_extension : ControlRequestCode :=
  { classId := KVMIO, number := 0x03, dir := Direction.none, payload := none }

/-- `ioctl!(get_vcpu_mmap_size with io!(KVMIO, 0x04));` -/
def get_vcpu_mmap_size : ControlRequestCode :=
  { classId := KVMIO, number := 0x04, dir := Direction.none, payload := none }

/-- `ioctl!(readwrite get_supported_cpuid with KVMIO, 0x05; kvm_cpuid2_header);` -/
def get_supported_cpuid : ControlRequestCode :=
  { classId := KVMIO, number := 0x05, dir := Direction.readwrite,
    payload := some PayloadType.kvm_cpuid2_header }

/-- `ioctl!(read get_emulated_cpuid with KVMIO,0x09; kvm_cpuid2_header);` -/
def get_emulated_cpuid : ControlRequestCode :=
  { classId := KVMIO, number := 0x09, dir := Direction.read,
    payload := some PayloadType.kvm_cpuid2_header }

/-- `ioctl!(write set_cpuid2 with KVMIO, 0x90; kvm_cpuid2_header);` -/
def set_cpuid2 : ControlRequestCode :=
  { classId := KVMIO, number := 0x90, dir := Direction.write,
    payload := some PayloadType.kvm_cpuid2_header }

/-- `ioctl!(create_vcpu with io!(KVMIO, 0x41));` -/
def create_vcpu : ControlRequestCode :=
  { classId := KVMIO, number := 0x41, dir := Direction.none, payload := none }

/-- `ioctl!(read get_dirty_log with KVMIO, 0x42;  kvm_dirty_log);` -/
def get_dirty_log : ControlRequestCode :=
  { classId := KVMIO, number := 0x42, dir := Direction.read,
    payload := some PayloadType.kvm_dirty_log }

/-- `ioctl!(write set_memory_alias with KVMIO, 0x43; kvm_memory_alias);` -/
def set_memory_alias : ControlRequestCode :=
  { classId := KVMIO, number := 0x43, dir := Direction.write,
    payload := some PayloadType.kvm_memory_alias }

/-- `ioctl!(set_nr_mmu_pages with io!(KVMIO, 0x44));` -/
def set_nr_mmu_pages : ControlRequestCode :=
  { classId := KVMIO, number := 0x44, dir := Direction.none, payload := none }

/-- `ioctl!(get_nr_mmu_pages with io!(KVMIO, 0x45));` -/
def get_nr_mmu_pages : ControlRequestCode :=
  { classId := KVMIO, number := 0x45, dir := Direction.none, payload := none }

/-- `ioctl!(write set_memory_region with KVMIO, 0x40; kvm_memory_region);` -/
def set_memory_region : ControlRequestCode :=
  { classId := KVMIO, number := 0x40, dir := Direction.write,
    payload := some PayloadType.kvm_memory_region }

/-- `ioctl!(write set_user_memory_region with KVMIO, 0x46; kvm_userspace_memory_region);` -/
def set_user_memory_region : ControlRequestCode :=
  { classId := KVMIO, number := 0x46, dir := Direction.write,
    payload := some PayloadType.kvm_userspace_memory_region }

/-- `ioctl!(create_irqchip with io!(KVMIO, 0x60));` -/
def create_irqchip : ControlRequestCode :=
  { classId := KVMIO, number := 0x60, dir := Direction.none, payload := none }

/-- `ioctl!(run with io!(KVMIO, 0x80));` -/
def run : ControlRequestCode :=
  { classId := KVMIO, number := 0x80, dir := Direction.none, payload := none }

/-- `ioctl!(read get_regs with KVMIO, 0x81; kvm_regs);` -/
def get_regs : ControlRequestCode :=
  { classId := KVMIO, number := 0x81, dir := Direction.read,
    payload := some PayloadType.kvm_regs }

/-- `ioctl!(write set_regs with KVMIO, 0x82; kvm_regs);` -/
def set_regs : ControlRequestCode :=
  { classId := KVMIO, number := 0x82, dir := Direction.write,
    payload := some PayloadType.kvm_regs }

/-- `ioctl!(read get_sregs with KVMIO, 0x83; kvm_sregs);` -/
def get_sregs : ControlRequestCode :=
  { classId := KVMIO, number := 0x83, dir := Direction.read,
    payload := some PayloadType.kvm_sregs }

/-- `ioctl!(write set_sregs with KVMIO, 0x84; kvm_sregs);` -/
def set_sregs : ControlRequestCode :=
  { classId := KVMIO, number := 0x84, dir := Direction.write,
    payload := some PayloadType.kvm_sregs }

end ioctl

/-! ## Result and error types -/

/-- `Version` (uhyve.rs lines 50-54): "KVM is freezed at version 12, so all
others are invalid". -/
inductive Version where
  | Version12
  | Unsupported
deriving DecidableEq, Repr

/-- Names of control requests that can be reported in an `Error.IOCTL` value.
The enum `uhyve::NameIOCTL` is declared outside the available sources; the
only variant this file constructs is `GetVersion` (uhyve.rs line 83), so the
model carries that variant (plus a placeholder for the remaining catalog
names, which this file never produces). -/
inductive NameIOCTL where
  | GetVersion
  | OtherOp
deriving DecidableEq, Repr

/-- The error domain `uhyve::Error`.  The enum is declared outside the
available sources; its constructors are modelled with exactly the shapes at
which uhyve.rs builds them: `Error::IOCTL(NameIOCTL)` (line 83, carrying only
the operation name) and `Error::InternalError` (line 93, carrying nothing). -/
inductive Error where
  | IOCTL (op : NameIOCTL)
  | InternalError
deriving DecidableEq, Repr

/-! ## Logging -/

/-- Severity levels of the Rust `log` crate macros. -/
inductive LogLevel where
  | error
  | warn
  | info
  | debug
  | trace
deriving DecidableEq, Repr

/-- A log level is informational when it denotes diagnostic output rather
than a warning or an error (the spec's "informational record"). -/
def LogLevel.informational : LogLevel → Bool
  | .error => false
  | .warn => false
  | _ => true

/-- One emitted log record: the level of the macro used and the message. -/
structure LogRecord where
  level : LogLevel
  message : String
deriving DecidableEq, Repr

/-! ## Opening the device node -/

/-- `std::fs::OpenOptions`, restricted to the options the standard library
exposes and uhyve.rs touches.  `mode` records whether custom permission bits
were requested via `OpenOptionsExt::mode` (`none` = never called). -/
structure OpenOptions where
  readAccess : Bool
  writeAccess : Bool
  appendMode : Bool
  truncateMode : Bool
  createMode : Bool
  createNewMode : Bool
  custom_flags : Int
  mode : Option Nat
deriving DecidableEq, Repr

/-- `OpenOptions::new()`: all access options off, no custom flags, no custom
permission bits. -/
def OpenOptions.new : OpenOptions :=
  { readAccess := false, writeAccess := false, appendMode := false,
    truncateMode := false, createMode := false, createNewMode := false,
    custom_flags := 0, mode := none }

/-- `OpenOptions::read`. -/
def OpenOptions.read (o : OpenOptions) (b : Bool) : OpenOptions :=
  { o with readAccess := b }

/-- `OpenOptions::write`. -/
def OpenOptions.write (o : OpenOptions) (b : Bool) : OpenOptions :=
  { o with writeAccess := b }

/-- `OpenOptionsExt::custom_flags`. -/
def OpenOptions.with_custom_flags (o : OpenOptions) (flags : Int) : OpenOptions :=
  { o with custom_flags := flags }

/-- `libc::O_CLOEXEC` (Linux, octal 0o2000000): the close-on-exec flag.  The
`libc` crate is outside the available sources; this is the platform constant
it re-exports. -/
def O_CLOEXEC : Int := 0o2000000

/-- One request to open a file: the options built by the caller and the path
passed to `OpenOptions::open`. -/
structure OpenRequest where
  opts : OpenOptions
  path : String
deriving DecidableEq, Repr

/-- Outcome of a computation that can terminate the process with a panic
instead of returning (Rust `unwrap` on `Err`). -/
inductive PanicOr (α : Type) where
  | panic
  | value (v : α)
deriving DecidableEq, Repr

/-! ## The Connection Manager (`Uhyve`, uhyve.rs lines 58-99) -/

/-- `pub struct Uhyve { file: File }`: owns the open handle to `/dev/kvm`. -/
structure Uhyve where
  file : File
deriving DecidableEq, Repr

/-- Trace of one execution of `Uhyve::new` (uhyve.rs lines 64-75). -/
structure NewTrace where
  openRequests : List OpenRequest
  logs : List LogRecord
  result : PanicOr Uhyve
deriving DecidableEq, Repr

/-- Shallow embedding of `Uhyve::new` (uhyve.rs lines 64-75):
builds `OpenOptions::new().read(true).write(true).custom_flags(libc::O_CLOEXEC)`,
opens `"/dev/kvm"` with it, and `unwrap`s the outcome (panic on failure).
On success it emits one `debug!` record and returns `Uhyve { file }`.
The OS outcome of the single open call is the oracle argument `openOutcome`. -/
def Uhyve.new (openOutcome : Except OsErr File) : NewTrace :=
  let opts :=
    ((OpenOptions.new.read true).write true).with_custom_flags O_CLOEXEC
  let req : OpenRequest := { opts := opts, path := "/dev/kvm" }
  match openOutcome with
  | .error _ => { openRequests := [req], logs := [], result := .panic }
  | .ok kvm_file =>
      { openRequests := [req],
        logs := [{ level := LogLevel.debug,
                   message := "UHYVE - The connection to KVM was established." }],
        result := .value { file := kvm_file } }

/-- Shallow embedding of `Uhyve::version` (uhyve.rs lines 78-86).  The kernel
response to the `ioctl::get_version` call on `self.file.as_raw_fd()` is the
oracle argument `r` (a successfully-read `i32` value, or an errno).  The
method takes `&self`, so the embedding returns the `Uhyve` state after the
call together with the result and the (empty) list of log records emitted. -/
def Uhyve.version (u : Uhyve) (r : Except OsErr Int) :
    Except Error Version × Uhyve × List LogRecord :=
  match r with
  | .ok 12 => (.ok Version.Version12, u, [])
  | .ok _ => (.ok Version.Unsupported, u, [])
  | .error _ => (.error (Error.IOCTL NameIOCTL.GetVersion), u, [])

/-- Arguments of one call to the external constructor
`VirtualMachine::new(fd, vm_fd, size)`. -/
structure VmNewCall where
  device_fd : Int
  vm_fd : Int
  size : Nat
deriving DecidableEq, Repr

/-- Shallow embedding of `Uhyve::create_vm` (uhyve.rs lines 89-98).  The
kernel response to the `ioctl::create_vm` call is the oracle argument `r`
(a new VM file descriptor, or an errno); the external collaborator
`VirtualMachine::new` is the parameter `vmNew` over an abstract result type
`VM`.  On success the code calls `vmNew` with the device descriptor, the
returned `vm_fd` and the requested `size`, and returns its result unchanged;
on failure it returns `Err(Error::InternalError)`.  The embedding also
returns the `Uhyve` state after the call, the list of `vmNew` invocations,
and the (empty) list of log records emitted by this method itself. -/
def Uhyve.create_vm {VM : Type} (u : Uhyve)
    (vmNew : Int → Int → Nat → Except Error VM)
    (r : Except OsErr Int) (size : Nat) :
    Except Error VM × Uhyve × List VmNewCall × List LogRecord :=
  match r with
  | .ok vm_fd =>
      (vmNew u.file.as_raw_fd vm_fd size, u,
        [{ device_fd := u.file.as_raw_fd, vm_fd := vm_fd, size := size }], [])
  | .error _ => (.error Error.InternalError, u, [], [])

/-- A concrete Connection Manager used by witness and counterexample
theorems: device descriptor 3. -/
def uhyve3 : Uhyve := { file := { fd := 3 } }

/-- The complete control-request catalog declared by the `ioctl` module, in
source order. -/
def ioctlCatalog : List ControlRequestCode :=
  [ioctl.get_version, ioctl.create_vm, ioctl.get_msr_index_list,
   ioctl.check_extension, ioctl.get_vcpu_mmap_size, ioctl.get_supported_cpuid,
   ioctl.get_emulated_cpuid, ioctl.set_cpuid2, ioctl.create_vcpu,
   ioctl.get_dirty_log, ioctl.set_memory_alias, ioctl.set_nr_mmu_pages,
   ioctl.get_nr_mmu_pages, ioctl.set_memory_region,
   ioctl.set_user_memory_region, ioctl.create_irqchip, ioctl.run,
   ioctl.get_regs, ioctl.set_regs, ioctl.get_sregs, ioctl.set_sregs]

/-! ## Helper lemmas -/

/-- Evaluation of `Uhyve.version` on a successfully-read value: the literal
pattern `Ok(12)` against the catch-all `Ok(_)` amounts to a test `v == 12`. -/
theorem Uhyve.version_ok_eq (u : Uhyve) (v : Int) :
    u.version (Except.ok v) =
      ((if v = 12 then Except.ok Version.Version12
        else Except.ok Version.Unsupported), u, []) := by
  rcases eq_or_ne v 12 with h | h
  · subst h; rfl
  · unfold Uhyve.version
    split
    · next heq => exact absurd (by injection heq) h
    · next heq => simp [h]
    · next heq => exact Except.noConfusion heq

/-! ## Claim theorems -/

/-- C1: for every successfully-read version value v, `version()` returns
`Ok(Version12)` iff v = 12, returns `Ok(Unsupported)` for every other value
(including 0 and negative sentinel values), and never turns a successfully
read value into an error. -/
theorem probe_version_supported_iff_12 (u : Uhyve) (v : Int) :
    ((u.version (Except.ok v)).1 = Except.ok Version.Version12 ↔ v = 12) ∧
    (v ≠ 12 → (u.version (Except.ok v)).1 = Except.ok Version.Unsupported) ∧
    (∀ e : Error, (u.version (Except.ok v)).1 ≠ Except.error e) := by
  rcases eq_or_ne v 12 with h | h
  · subst h
    exact ⟨by simp [Uhyve.version_ok_eq], fun hne => absurd rfl hne,
      fun e he => by simp [Uhyve.version_ok_eq] at he⟩
  · refine ⟨?_, fun _ => by simp [Uhyve.version_ok_eq, h], ?_⟩
    · constructor
      · intro hv
        simp [Uhyve.version_ok_eq, h] at hv
      · intro hv; exact absurd hv h
    · intro e he
      simp [Uhyve.version_ok_eq, h] at he

/-- Witness for C1 at the concrete values 12, 0 and -1 on a concrete
Connection Manager. -/
theorem probe_version_supported_iff_12_witness :
    (uhyve3.version (Except.ok 12)).1 = Except.ok Version.Version12 ∧
    (uhyve3.version (Except.ok 0)).1 = Except.ok Version.Unsupported ∧
    (uhyve3.version (Except.ok (-1))).1 = Except.ok Version.Unsupported :=
  ⟨(probe_version_supported_iff_12 uhyve3 12).1.mpr rfl,
   (probe_version_supported_iff_12 uhyve3 0).2.1 (by decide),
   (probe_version_supported_iff_12 uhyve3 (-1)).2.1 (by decide)⟩

/-- C2: when the VM-creation request succeeds with kernel handle vm_fd,
`create_vm(size)` invokes `VirtualMachine::new` exactly once, passing the
device descriptor, vm_fd and the requested size unmodified, and returns the
constructor's own result unchanged — for every size, including 0. -/
theorem create_vm_delegates_unmodified {VM : Type} (u : Uhyve)
    (vmNew : Int → Int → Nat → Except Error VM) (vm_fd : Int) (size : Nat) :
    (u.create_vm vmNew (Except.ok vm_fd) size).1 =
      vmNew u.file.as_raw_fd vm_fd size ∧
    (u.create_vm vmNew (Except.ok vm_fd) size).2.2.1 =
      [{ device_fd := u.file.as_raw_fd, vm_fd := vm_fd, size := size }] :=
  ⟨rfl, rfl⟩

/-- C3: when the VM-creation request fails, `create_vm(size)` returns
`Err(Error::InternalError)` (the spec's `VmCreationFailed`), never invokes
the `VirtualMachine` constructor, and produces the same outcome for every
underlying OS error (the error detail is discarded) — for every size. -/
theorem create_vm_failure_no_constructor {VM : Type} (u : Uhyve)
    (vmNew : Int → Int → Nat → Except Error VM) (e eAlt : OsErr) (size : Nat) :
    u.create_vm vmNew (Except.error e) size =
      (Except.error Error.InternalError, u, [], []) ∧
    u.create_vm vmNew (Except.error e) size =
      u.create_vm vmNew (Except.error eAlt) size :=
  ⟨rfl, rfl⟩

/-- C4: whenever the version-query request fails, `version()` returns
`Err(Error::IOCTL(GetVersion))` (the spec's
`ControlRequestFailed{VersionQuery}`), deterministically and independently of
the Connection Manager state and of the particular OS error. -/
theorem probe_version_failure_deterministic (u uAlt : Uhyve) (e eAlt : OsErr) :
    (u.version (Except.error e)).1 =
      Except.error (Error.IOCTL NameIOCTL.GetVersion) ∧
    (u.version (Except.error e)).1 = (uAlt.version (Except.error eAlt)).1 :=
  ⟨rfl, rfl⟩

/-- C5 counterexample: two different OS-level causes (errno 2, "no such file
or directory", and errno 13, "permission denied") produce identical error
values from `version()`, so no caller can recover which OS error occurred
from the returned error — refuting the claim that the returned
`ControlRequestFailed` carries the underlying OS-level cause. -/
theorem version_error_discards_cause :
    (uhyve3.version (Except.error 2)).1 = (uhyve3.version (Except.error 13)).1 ∧
    (2 : OsErr) ≠ 13 :=
  ⟨rfl, by decide⟩

/-- C5 (amended): on version-probe failure the returned error carries only
the name of the failed operation (`GetVersion`); the underlying OS-level
cause is discarded, the error value being one constant for every errno. -/
theorem version_error_carries_operation_only (u : Uhyve) (e eAlt : OsErr) :
    (u.version (Except.error e)).1 =
      Except.error (Error.IOCTL NameIOCTL.GetVersion) ∧
    (u.version (Except.error e)).1 = (u.version (Except.error eAlt)).1 :=
  ⟨rfl, rfl⟩

/-- C6: the control-request catalog binds each operation to its fixed
(class id, operation number, direction, payload type) tuple exactly as
enumerated — version query (none, 0x00), VM creation (none, 0x01),
MSR-list query (read, 0x02), extension check (none, 0x03), mmap-size query
(none, 0x04), supported/emulated cpuid (read-write 0x05 / read 0x09),
cpuid assignment (write), vCPU creation (none), dirty-log query (read),
memory-alias assignment (write), MMU page-count set/get (none), legacy and
userspace memory-region assignment (write), irqchip creation (none),
run (none), and register get/set (read/write) — and every entry carries the
single subsystem class id constant. -/
theorem ioctl_catalog_matches_enumeration :
    (ioctl.get_version.dir = Direction.none ∧ ioctl.get_version.number = 0x00) ∧
    (ioctl.create_vm.dir = Direction.none ∧ ioctl.create_vm.number = 0x01) ∧
    (ioctl.get_msr_index_list.dir = Direction.read ∧
      ioctl.get_msr_index_list.number = 0x02) ∧
    (ioctl.check_extension.dir = Direction.none ∧
      ioctl.check_extension.number = 0x03) ∧
    (ioctl.get_vcpu_mmap_size.dir = Direction.none ∧
      ioctl.get_vcpu_mmap_size.number = 0x04) ∧
    (ioctl.get_supported_cpuid.dir = Direction.readwrite ∧
      ioctl.get_supported_cpuid.number = 0x05) ∧
    (ioctl.get_emulated_cpuid.dir = Direction.read ∧
      ioctl.get_emulated_cpuid.number = 0x09) ∧
    ioctl.set_cpuid2.dir = Direction.write ∧
    ioctl.create_vcpu.dir = Direction.none ∧
    ioctl.get_dirty_log.dir = Direction.read ∧
    ioctl.set_memory_alias.dir = Direction.write ∧
    ioctl.set_nr_mmu_pages.dir = Direction.none ∧
    ioctl.get_nr_mmu_pages.dir = Direction.none ∧
    ioctl.set_memory_region.dir = Direction.write ∧
    ioctl.set_user_memory_region.dir = Direction.write ∧
    ioctl.create_irqchip.dir = Direction.none ∧
    ioctl.run.dir = Direction.none ∧
    ioctl.get_regs.dir = Direction.read ∧
    ioctl.set_regs.dir = Direction.write ∧
    ioctl.get_sregs.dir = Direction.read ∧
    ioctl.set_sregs.dir = Direction.write ∧
    (∀ c ∈ ioctlCatalog, c.classId = KVMIO) := by
  decide

/-- C7: for every outcome of the open call, construction issues exactly one
open request, for the fixed path `/dev/kvm`, with read and write access,
with the close-on-exec flag as the only custom flag, and with no custom
permission bits requested. -/
theorem new_opens_device_once (openOutcome : Except OsErr File) :
    (Uhyve.new openOutcome).openRequests =
      [{ opts := { readAccess := true, writeAccess := true,
                   appendMode := false, truncateMode := false,
                   createMode := false, createNewMode := false,
                   custom_flags := O_CLOEXEC, mode := none },
         path := "/dev/kvm" }] := by
  cases openOutcome <;> rfl

/-- C8: if opening the device node fails, construction neither returns a
`Uhyve` value nor a typed error: the `unwrap` panics, terminating
the process. -/
theorem new_panics_on_open_failure (e : OsErr) :
    (Uhyve.new (Except.error e)).result = PanicOr.panic := rfl

/-- C9: exactly one log record — at an informational (non-error, non-warning)
level — is emitted, namely on successful device connection during
construction; failed construction, `version()` and `create_vm()` (success or
failure paths alike) emit no log output of their own. -/
theorem single_informational_log_on_connect {VM : Type} (f : File)
    (e : OsErr) (u : Uhyve) (r rC : Except OsErr Int)
    (vmNew : Int → Int → Nat → Except Error VM) (size : Nat) :
    (Uhyve.new (Except.ok f)).logs =
      [{ level := LogLevel.debug,
         message := "UHYVE - The connection to KVM was established." }] ∧
    LogLevel.debug.informational = true ∧
    (Uhyve.new (Except.error e)).logs = [] ∧
    (u.version r).2.2 = [] ∧
    (u.create_vm vmNew rC size).2.2.2 = [] := by
  refine ⟨rfl, rfl, rfl, ?_, ?_⟩
  · cases r with
    | ok v => simp [Uhyve.version_ok_eq]
    | error eV => rfl
  · cases rC <;> rfl

/-- C10: `version()` and `create_vm()` take the Connection Manager by shared
reference and never mutate it: on every path, success or failure, the state
after the call is the state before it, still holding the same device
handle. -/
theorem ops_preserve_device_handle {VM : Type} (u : Uhyve)
    (r rC : Except OsErr Int)
    (vmNew : Int → Int → Nat → Except Error VM) (size : Nat) :
    (u.version r).2.1 = u ∧ (u.create_vm vmNew rC size).2.1 = u ∧
    (u.create_vm vmNew rC size).2.1.file = u.file := by
  refine ⟨?_, ?_, ?_⟩
  · cases r with
    | ok v => simp [Uhyve.version_ok_eq]
    | error eV => rfl
  · cases rC <;> rfl
  · cases rC <;> rfl

end Hermit
